import Mathlib

/-!
# Verification of the arena-shooter match simulation engine

A shallow embedding, in Lean 4, of the match simulation engine of a
first-person arena shooter (`Health`, `Weapon`, and the `GameManager`
match-state machine), together with theorems settling the frozen claims
about it.

Modelling conventions:
* JavaScript numbers are modelled as `Int` for millisecond timestamps and
  integer damage/health amounts, and as `ℚ` for second-valued timers and
  geometric distances (every comparison in the source is on exact values
  that stay rational on the inputs we consider).
* External primitives (the Babylon raycast `scene.pickWithRay` and
  `Vector3.Distance`) are passed in explicitly: a fire call receives the
  raycast answer as an `Option Hit` and the Euclidean-distance primitive
  as a function `Vec3 → Vec3 → ℚ`.  The ray direction argument of `fire`
  is consumed only by the raycast primitive, so it does not appear in the
  model.
* Event callbacks (death, health-change, state-change, stats, hit) are
  modelled by counting firings, or by applying the registered handlers
  inline where the game manager registers them.
-/

namespace Arena

/-- A 3-D vector with rational coordinates (the model of `Vector3`). -/
structure Vec3 where
  x : ℚ
  y : ℚ
  z : ℚ
deriving DecidableEq, Repr

/-! ## Game constants (`src/engine/constants.ts`, `GAME_CONSTANTS`) -/

def MAX_HEALTH : Int := 100
def BODY_DAMAGE : Int := 20
def HEADSHOT_DAMAGE : Int := 30
/-- `FIRE_INTERVAL * 1000`: the weapon fire interval in milliseconds. -/
def FIRE_INTERVAL_MS : Int := 200
def RESPAWN_DELAY : ℚ := 2
def WIN_CONDITION_KILLS : Nat := 10
def MATCH_TIME_LIMIT : ℚ := 5 * 60
def BOT_CHASE_DISTANCE : ℚ := 20
def ARENA_SIZE : ℚ := 30

/-- `scene.playerSpawn = new Vector3(-ARENA_SIZE / 2 + 2, 2, 0)`. -/
def playerSpawn : Vec3 := ⟨-ARENA_SIZE / 2 + 2, 2, 0⟩

/-- `scene.botSpawn = new Vector3(ARENA_SIZE / 2 - 2, 2, 0)`. -/
def botSpawn : Vec3 := ⟨ARENA_SIZE / 2 - 2, 2, 0⟩

/-! ## Health (`src/engine/health.ts`) -/

/-- The `Health` class.  `deathEvents` and `healthChangeEvents` count how
often the death / health-changed callback lists have been notified. -/
structure Health where
  health : Int
  maxHealth : Int
  deathEvents : Nat
  healthChangeEvents : Nat
deriving DecidableEq, Repr

/-- The `Health` constructor (callbacks have fired zero times). -/
def Health.init (maxHealth : Int := MAX_HEALTH) : Health :=
  ⟨maxHealth, maxHealth, 0, 0⟩

/-- `takeDamage(amount, _isHeadshot)`: no-op when already dead, otherwise
subtract and clamp at 0, notify health-change, and notify death when the
result is ≤ 0.  The headshot flag is accepted and ignored. -/
def Health.takeDamage (h : Health) (amount : Int) (_isHeadshot : Bool := false) :
    Health :=
  if h.health ≤ 0 then h
  else
    let newHealth := max 0 (h.health - amount)
    let h1 := { h with health := newHealth,
                       healthChangeEvents := h.healthChangeEvents + 1 }
    if newHealth ≤ 0 then { h1 with deathEvents := h1.deathEvents + 1 }
    else h1

/-- `isDead()`: `health <= 0`. -/
def Health.isDead (h : Health) : Bool := h.health ≤ 0

/-- `reset()`: restore to maximum and notify health-change. -/
def Health.reset (h : Health) : Health :=
  { h with health := h.maxHealth,
           healthChangeEvents := h.healthChangeEvents + 1 }

/-- The operations through which a `Health` is mutated. -/
inductive HealthOp
  | takeDamage (amount : Int) (isHeadshot : Bool)
  | reset
deriving DecidableEq, Repr

def Health.applyOp (h : Health) : HealthOp → Health
  | .takeDamage a hs => h.takeDamage a hs
  | .reset => h.reset

def Health.runOps (h : Health) (ops : List HealthOp) : Health :=
  ops.foldl Health.applyOp h

/-- A damage sequence is well-formed when every damage amount is
nonnegative (every call site passes 20 or 30). -/
def HealthOp.nonnegDamage : HealthOp → Prop
  | .takeDamage a _ => 0 ≤ a
  | .reset => True

instance : DecidablePred HealthOp.nonnegDamage := by
  intro op; cases op <;> simp [HealthOp.nonnegDamage] <;> infer_instance

/-! ## Weapon (`src/engine/weapon.ts`) -/

/-- The `Weapon` class state: last-fire timestamp (ms) and fire interval
(ms).  The constructor sets the interval to `FIRE_INTERVAL * 1000`. -/
structure Weapon where
  lastFireTime : Int
  fireInterval : Int
deriving DecidableEq, Repr

def Weapon.init : Weapon := ⟨0, FIRE_INTERVAL_MS⟩

/-- `canFire()`: `Date.now() - lastFireTime >= fireInterval`. -/
def Weapon.canFire (w : Weapon) (now : Int) : Bool :=
  decide (now - w.lastFireTime ≥ w.fireInterval)

/-- `reset()`: clear the last-fire timestamp. -/
def Weapon.reset (w : Weapon) : Weapon := { w with lastFireTime := 0 }

/-- The answer of the raycast primitive `scene.pickWithRay` for a ray that
hit some pickable geometry: the picked mesh (identity and name) and the
reported hit distance. -/
structure Hit where
  meshId : Nat
  meshName : String
  distance : ℚ
deriving DecidableEq, Repr

/-- The `IDamageable` view of a fire target: tracked position, optional
head position, optional head-collider mesh identity, and its health. -/
structure Target where
  position : Vec3
  headPosition : Option Vec3
  headColliderId : Option Nat
  health : Health
deriving DecidableEq, Repr

/-- Everything a call to `Weapon.fire` returns or mutates: the updated
weapon, the (possibly damaged) target, the boolean return value, and the
arguments of the `onHit` invocations it performed (in order). -/
structure FireResult where
  weapon : Weapon
  target : Option Target
  result : Bool
  onHitCalls : List Bool
deriving DecidableEq, Repr

/-- The secondary head-distance check of `fire`: a body hit is
reclassified as a headshot when the target exposes a head position and
the hit distance is within 0.3 of the distance to the head and does not
exceed it by more than 0.2.  The source reads the hit distance through
`hit.distance || Infinity`, so a reported distance of exactly 0 is
replaced by Infinity, under which both comparisons are false; this is
modelled by conjoining `hd ≠ 0`. -/
def headReclass (t : Target) (hd : ℚ) (dist : Vec3 → Vec3 → ℚ)
    (origin : Vec3) : Bool :=
  match t.headPosition with
  | some hp =>
      decide (hd ≠ 0 ∧ |hd - dist origin hp| < 3/10 ∧ hd ≤ dist origin hp + 1/5)
  | none => false

/-- The head-capsule check of `fire`: the target exposes a head collider,
it is not null, and the picked mesh is that very object. -/
def capsuleHeadshot (t : Target) (hit : Hit) : Bool :=
  match t.headColliderId with
  | some hc => decide (hit.meshId = hc)
  | none => false

/-- The body-tag checks of `fire`: a mesh named `'bot'` with the hit
distance within 2.0 of the distance to the target's tracked position, or
— only if the target was not yet hit, which the disjunction preserves
since the mesh has a single name — a mesh named `'playerBody'` with
tolerance 1.5.  `hit.distance || Infinity` makes both comparisons false
when the reported distance is 0, which is modelled by the `≠ 0`
conjuncts. -/
def bodyTagHit (hit : Hit) (distanceToTarget : ℚ) : Bool :=
  decide (hit.meshName = "bot" ∧ hit.distance ≠ 0 ∧
          |hit.distance - distanceToTarget| < 2) ||
  decide (hit.meshName = "playerBody" ∧ hit.distance ≠ 0 ∧
          |hit.distance - distanceToTarget| < 3/2)

/-- `fire(origin, direction, damageable, onHit?)`.

The raycast primitive is supplied as `pick` (its answer for this ray) and
the `Vector3.Distance` primitive as `dist`; the `direction` argument of
the source is consumed only by the raycast, so it does not appear here. -/
def Weapon.fire (w : Weapon) (now : Int) (pick : Option Hit)
    (dist : Vec3 → Vec3 → ℚ) (origin : Vec3)
    (target : Option Target) : FireResult :=
  if ¬ w.canFire now then ⟨w, target, false, []⟩
  else
    let w := { w with lastFireTime := now }
    match target with
    | none => ⟨w, none, false, []⟩
    | some t =>
      match pick with
      | none => ⟨w, some t, false, []⟩
      | some hit =>
        let distanceToTarget := dist origin t.position
        let hitTarget : Bool :=
          capsuleHeadshot t hit || bodyTagHit hit distanceToTarget
        if hitTarget then
          let isHeadshot : Bool :=
            capsuleHeadshot t hit || headReclass t hit.distance dist origin
          let damage : Int :=
            if isHeadshot then HEADSHOT_DAMAGE else BODY_DAMAGE
          let t2 := { t with health := t.health.takeDamage damage isHeadshot }
          ⟨w, some t2, true, [isHeadshot]⟩
        else
          ⟨w, some t, false, []⟩

/-! ## Combatants (`src/engine/player.ts`, `src/engine/bot.ts`)

Only the state the match controller observes is modelled: position,
health, the control flag, the player's own dead flag, and the
head-collider identity.  Orientation, hit-capsule placement and the bot's
AI timing fields are internal to the per-tick entity updates, which the
controller treats as opaque effects (see `TickInput`); neither entity
update touches a weapon, a health value, or any controller counter. -/

/-- The `Player` state seen by the game manager. -/
structure PlayerM where
  position : Vec3
  health : Health
  canControl : Bool
  isDead : Bool
  headColliderId : Option Nat
deriving DecidableEq, Repr

/-- The player construction: camera starts at the player spawn with
`y = 1.8` (eye level), full health, controllable. -/
def PlayerM.init (headId : Nat) : PlayerM :=
  ⟨⟨playerSpawn.x, 9/5, playerSpawn.z⟩, Health.init, true, false, some headId⟩

/-- `Player.respawn(spawnPoint)`: position is the spawn point at eye level
(`y = 1.8`), health reset, flags restored.  (`weapon.reset()` is applied
by the caller to the shared weapon instance.) -/
def PlayerM.respawn (p : PlayerM) (spawn : Vec3) : PlayerM :=
  { p with position := ⟨spawn.x, 9/5, spawn.z⟩,
           health := p.health.reset,
           isDead := false,
           canControl := true }

/-- `Player.getHeadPosition()`: camera position plus `(0, 0.5, 0)`. -/
def PlayerM.headPosition (p : PlayerM) : Vec3 :=
  ⟨p.position.x, p.position.y + 1/2, p.position.z⟩

/-- The `IDamageable` view of the player passed to `botWeapon.fire`. -/
def PlayerM.asTarget (p : PlayerM) : Target :=
  ⟨p.position, some p.headPosition, p.headColliderId, p.health⟩

/-- The `Bot` state seen by the game manager. -/
structure BotM where
  position : Vec3
  health : Health
  headColliderId : Nat
deriving DecidableEq, Repr

/-- The bot construction: mesh at the bot spawn with `y = 1`, full
health. -/
def BotM.init (headId : Nat) : BotM :=
  ⟨⟨botSpawn.x, 1, botSpawn.z⟩, Health.init, headId⟩

/-- `Bot.respawn(spawnPoint)`: position is the spawn point, health reset.
(`weapon.reset()` is applied by the caller to the shared weapon.) -/
def BotM.respawn (b : BotM) (spawn : Vec3) : BotM :=
  { b with position := spawn, health := b.health.reset }

/-- `Bot.getHeadPosition()`: mesh position plus `(0, 2, 0)`. -/
def BotM.headPosition (b : BotM) : Vec3 :=
  ⟨b.position.x, b.position.y + 2, b.position.z⟩

/-- The `IDamageable` view of the bot passed to `playerWeapon.fire`. -/
def BotM.asTarget (b : BotM) : Target :=
  ⟨b.position, some b.headPosition, some b.headColliderId, b.health⟩

/-! ## GameManager (`src/engine/gameManager.ts`) -/

inductive GameState
  | waiting | playing | respawning | matchEnded | paused
deriving DecidableEq, Repr

inductive Side
  | player | bot
deriving DecidableEq, Repr

/-- The `GameStats` record. -/
structure GameStats where
  playerKills : Nat
  botKills : Nat
  shotsFired : Nat
  shotsHit : Nat
  headshots : Nat
  playerAccuracy : ℚ
  botAccuracy : ℚ
  averageLifeDuration : ℚ
deriving DecidableEq, Repr

def GameStats.init : GameStats := ⟨0, 0, 0, 0, 0, 0, 0, 0⟩

/-- The `GameManager` state. -/
structure GM where
  state : GameState
  matchStartTime : Int
  matchTimeRemaining : ℚ
  playerKills : Nat
  botKills : Nat
  respawnTimer : ℚ
  respawningEntity : Option Side
  stats : GameStats
  lifeStartTime : Int
  gameStartTime : Int
  lifeDurations : List ℚ
  playerShotsFired : Nat
  playerShotsHit : Nat
  botShotsFired : Nat
  botShotsHit : Nat
  player : PlayerM
  bot : BotM
  playerWeapon : Weapon
  botWeapon : Weapon
deriving DecidableEq, Repr

/-- The `GameManager` constructor (`now` is `Date.now()` at construction;
`headP`/`headB` are the mesh identities of the two head colliders). -/
def GM.init (now : Int) (headP : Nat := 1) (headB : Nat := 2) : GM where
  state := .waiting
  matchStartTime := now
  matchTimeRemaining := MATCH_TIME_LIMIT
  playerKills := 0
  botKills := 0
  respawnTimer := 0
  respawningEntity := none
  stats := GameStats.init
  lifeStartTime := now
  gameStartTime := 0
  lifeDurations := []
  playerShotsFired := 0
  playerShotsHit := 0
  botShotsFired := 0
  botShotsHit := 0
  player := PlayerM.init headP
  bot := BotM.init headB
  playerWeapon := Weapon.init
  botWeapon := Weapon.init

/-- `startGame()`: only from `waiting`; pointer-lock acquisition (an
external capability, outcome `lockOk`) is awaited first, and on failure
the state is left untouched. -/
def GM.startGame (gm : GM) (lockOk : Bool) (now : Int) : GM :=
  if gm.state ≠ .waiting then gm
  else if lockOk then
    { gm with state := .playing,
              matchStartTime := now,
              lifeStartTime := now,
              gameStartTime := now }
  else gm

/-- `pause()` (private, reached from the loop on Esc while playing). -/
def GM.pause (gm : GM) : GM :=
  { gm with state := .paused,
            player := { gm.player with canControl := false } }

/-- `unpause()`: only from `paused`; pointer-lock re-acquisition is
awaited, and on failure the state stays `paused`. -/
def GM.unpause (gm : GM) (lockOk : Bool) : GM :=
  if gm.state = .paused then
    if lockOk then
      { gm with state := .playing,
                player := { gm.player with canControl := true } }
    else gm
  else gm

/-- `startRespawn(entity)`. -/
def GM.startRespawn (gm : GM) (entity : Side) : GM :=
  { gm with state := .respawning,
            respawningEntity := some entity,
            respawnTimer := RESPAWN_DELAY }

/-- `handlePlayerDeath()`: record the life duration, credit the bot with
a kill, and start the player respawn. -/
def GM.handlePlayerDeath (gm : GM) (now : Int) : GM :=
  let lifeDuration : ℚ := ((now - gm.lifeStartTime : Int) : ℚ) / 1000
  let k := gm.botKills + 1
  ({ gm with lifeDurations := gm.lifeDurations ++ [lifeDuration],
             botKills := k,
             stats := { gm.stats with botKills := k } }).startRespawn .player

/-- `handleBotDeath()`: credit the player with a kill and start the bot
respawn. -/
def GM.handleBotDeath (gm : GM) : GM :=
  let k := gm.playerKills + 1
  ({ gm with playerKills := k,
             stats := { gm.stats with playerKills := k } }).startRespawn .bot

/-- `updateStats()`: recompute the derived accuracies (guarding the
zero-shot case) and the average life duration. -/
def GM.updateStats (gm : GM) : GM :=
  let s := gm.stats
  let s := { s with
    playerAccuracy :=
      if gm.playerShotsFired > 0 then
        ((gm.playerShotsHit : ℚ) / (gm.playerShotsFired : ℚ)) * 100
      else 0,
    botAccuracy :=
      if gm.botShotsFired > 0 then
        ((gm.botShotsHit : ℚ) / (gm.botShotsFired : ℚ)) * 100
      else 0 }
  let s :=
    if gm.lifeDurations.length > 0 then
      { s with averageLifeDuration :=
          gm.lifeDurations.sum / (gm.lifeDurations.length : ℚ) }
    else s
  { gm with stats := s }

/-- `endMatch(winner)`: the winner argument is computed by the caller but
unused; end the match, revoke player control, refresh stats. -/
def GM.endMatch (gm : GM) : GM :=
  ({ gm with state := .matchEnded,
             player := { gm.player with canControl := false } }).updateStats

/-- `restart()`: zero every counter/timer/statistic, respawn both
combatants (which also resets both weapons), return to `waiting`.
(`gameStartTime` is not touched by the source.) -/
def GM.restart (gm : GM) (now : Int) : GM :=
  { gm with
    state := .waiting,
    matchStartTime := now,
    matchTimeRemaining := MATCH_TIME_LIMIT,
    playerKills := 0,
    botKills := 0,
    respawnTimer := 0,
    respawningEntity := none,
    stats := GameStats.init,
    lifeStartTime := now,
    lifeDurations := [],
    playerShotsFired := 0,
    playerShotsHit := 0,
    botShotsFired := 0,
    botShotsHit := 0,
    player := gm.player.respawn playerSpawn,
    bot := gm.bot.respawn botSpawn,
    playerWeapon := gm.playerWeapon.reset,
    botWeapon := gm.botWeapon.reset }

/-- The per-frame environment of one `gameLoop` iteration: wall-clock
inputs, the sampled input state, the answers of the raycast primitive for
the (at most) two rays cast this tick, the `Vector3.Distance` primitive,
and the two entity updates.

`Player.update` and `Bot.update` move only the combatant that is updated
(orientation, capsule placement and AI-timing changes are internal to
them); their net per-tick effect on the observed state is the position
change, supplied here as opaque functions.  `Bot.update` never fires the
weapon: its `shootAtPlayer` computes a direction and returns, actual bot
fire is issued by the game loop. -/
structure TickInput where
  /-- `(currentTime - lastTime) / 1000` from `performance.now`, before
  the 0.1 s cap. -/
  frameDelta : ℚ
  /-- `Date.now()` in ms. -/
  now : Int
  escapePressed : Bool
  mouse0 : Bool
  playerPick : Option Hit
  botPick : Option Hit
  dist : Vec3 → Vec3 → ℚ
  playerUpd : Vec3 → Vec3
  botUpd : Vec3 → Vec3

/-- The entity-update step of a playing tick: `player.update(dt)` returns
immediately when control is revoked, `bot.update(dt, playerPos)` returns
immediately when the bot is dead. -/
def GM.updateEntities (gm : GM) (i : TickInput) : GM :=
  let p := if gm.player.canControl then
      { gm.player with position := i.playerUpd gm.player.position }
    else gm.player
  let b := if gm.bot.health.isDead then gm.bot
    else { gm.bot with position := i.botUpd gm.bot.position }
  { gm with player := p, bot := b }

/-- The game loop's `onHit` callback for a player shot. -/
def GM.playerOnHit (gm : GM) (isHeadshot : Bool) : GM :=
  let s := gm.stats
  let s := if isHeadshot then { s with headshots := s.headshots + 1 } else s
  { gm with stats := { s with shotsHit := s.shotsHit + 1 },
            playerShotsHit := gm.playerShotsHit + 1 }

/-- The player-shooting step of a playing tick: when the fire button is
down and the weapon ready, count the shot, fire at the bot, apply the
resulting bot health (whose death notification runs `handleBotDeath`),
then run the `onHit` callbacks. -/
def GM.playerFirePhase (gm : GM) (i : TickInput) : GM :=
  if i.mouse0 ∧ gm.playerWeapon.canFire i.now then
    let gm := { gm with
      playerShotsFired := gm.playerShotsFired + 1,
      stats := { gm.stats with shotsFired := gm.stats.shotsFired + 1 } }
    let r := gm.playerWeapon.fire i.now i.playerPick i.dist
      gm.player.position (some gm.bot.asTarget)
    let newBotHealth := match r.target with
      | some t => t.health
      | none => gm.bot.health
    let botDied := newBotHealth.deathEvents > gm.bot.health.deathEvents
    let gm := { gm with playerWeapon := r.weapon,
                        bot := { gm.bot with health := newBotHealth } }
    let gm := if botDied then gm.handleBotDeath else gm
    r.onHitCalls.foldl GM.playerOnHit gm
  else gm

/-- The game loop's `onHit` callback for a bot shot. -/
def GM.botOnHit (gm : GM) (_isHeadshot : Bool) : GM :=
  { gm with botShotsHit := gm.botShotsHit + 1 }

/-- The bot-shooting step of a playing tick: gated on the bot weapon's
rate limit, both combatants being alive, the 2 s grace period since
`gameStartTime`, and the chase-distance engagement range.  On a player
death the player's own death callback (dead flag set, control revoked)
runs before `handlePlayerDeath`. -/
def GM.botFirePhase (gm : GM) (i : TickInput) : GM :=
  let timeSinceStart : ℚ := ((i.now - gm.gameStartTime : Int) : ℚ) / 1000
  if gm.botWeapon.canFire i.now ∧ ¬ gm.bot.health.isDead ∧
      ¬ gm.player.health.isDead ∧ timeSinceStart ≥ 2 then
    let distance := i.dist gm.bot.position gm.player.position
    if distance ≤ BOT_CHASE_DISTANCE then
      let gm := { gm with botShotsFired := gm.botShotsFired + 1 }
      let r := gm.botWeapon.fire i.now i.botPick i.dist
        gm.bot.position (some gm.player.asTarget)
      let newHealth := match r.target with
        | some t => t.health
        | none => gm.player.health
      let playerDied := newHealth.deathEvents > gm.player.health.deathEvents
      let p := if playerDied then
          { gm.player with health := newHealth, isDead := true,
                           canControl := false }
        else { gm.player with health := newHealth }
      let gm := { gm with botWeapon := r.weapon, player := p }
      let gm := if playerDied then gm.handlePlayerDeath i.now else gm
      r.onHitCalls.foldl GM.botOnHit gm
    else gm
  else gm

/-- The match-clock update at the start of a playing tick:
`matchTimeRemaining = max(0, MATCH_TIME_LIMIT - elapsed)`. -/
def GM.withTimer (gm : GM) (now : Int) : GM :=
  { gm with matchTimeRemaining := (max 0
      (MATCH_TIME_LIMIT - ((now - gm.matchStartTime : Int) : ℚ) / 1000)) }

/-- The `playing` branch of the loop body: advance the match clock, check
the win conditions (short-circuiting the whole rest of the tick), then
update entities, process player fire, process bot fire, refresh stats. -/
def GM.tickPlaying (gm : GM) (i : TickInput) : GM :=
  let gm := gm.withTimer i.now
  if gm.playerKills ≥ WIN_CONDITION_KILLS then gm.endMatch
  else if gm.botKills ≥ WIN_CONDITION_KILLS then gm.endMatch
  else if gm.matchTimeRemaining ≤ 0 then gm.endMatch
  else
    ((((gm.updateEntities i).playerFirePhase i).botFirePhase i)).updateStats

/-- The `respawning` branch of the loop body: count the timer down by the
capped delta and, at zero, respawn the recorded side (with its weapon)
and return to `playing`. -/
def GM.tickRespawning (gm : GM) (i : TickInput) (dt : ℚ) : GM :=
  let t := gm.respawnTimer - dt
  let gm := { gm with respawnTimer := t }
  if t ≤ 0 then
    let gm := match gm.respawningEntity with
      | some .player =>
          { gm with player := gm.player.respawn playerSpawn,
                    playerWeapon := gm.playerWeapon.reset,
                    lifeStartTime := i.now }
      | some .bot =>
          { gm with bot := gm.bot.respawn botSpawn,
                    botWeapon := gm.botWeapon.reset }
      | none => gm
    { gm with state := .playing, respawningEntity := none }
  else gm

/-- One iteration of the `gameLoop` body.  Esc while `playing` pauses
synchronously; Esc while `paused` only issues the asynchronous `unpause`
request, whose resolution is the separate operation `Op.unpause` (the
state does not change within the tick that issues it).  The remaining
work runs only in the `playing` and `respawning` branches. -/
def GM.tick (gm : GM) (i : TickInput) : GM :=
  let dt := min i.frameDelta (1/10)
  let gm := if i.escapePressed ∧ gm.state = .playing then gm.pause else gm
  if gm.state = .playing then gm.tickPlaying i
  else if gm.state = .respawning then gm.tickRespawning i dt
  else gm

/-- The operations through which the controller state evolves: the two
externally triggered transitions (with the outcome of the awaited
pointer-lock acquisition), one loop iteration, and restart. -/
inductive Op
  | startGame (lockOk : Bool) (now : Int)
  | unpause (lockOk : Bool)
  | tick (i : TickInput)
  | restart (now : Int)

def GM.step (gm : GM) : Op → GM
  | .startGame lockOk now => gm.startGame lockOk now
  | .unpause lockOk => gm.unpause lockOk
  | .tick i => gm.tick i
  | .restart now => gm.restart now

def GM.run (gm : GM) (ops : List Op) : GM := ops.foldl GM.step gm

/-! ## Invariants and concrete configurations used in the statements -/

/-- The `Health` data invariant of the spec: maximum fixed at 100 and
current within `[0, maximum]`. -/
def HealthInv (h : Health) : Prop :=
  h.maxHealth = 100 ∧ 0 ≤ h.health ∧ h.health ≤ 100

/-- A constant distance primitive, for concrete instantiations. -/
def distConst (q : ℚ) : Vec3 → Vec3 → ℚ := fun _ _ => q

def origin0 : Vec3 := ⟨0, 0, 0⟩

/-- The match-state transition edges listed in §4.5 of the spec:
waiting→playing, playing→paused, paused→playing, playing→respawning,
respawning→playing, playing→matchEnded, matchEnded→waiting. -/
def specEdge : GameState → GameState → Bool
  | .waiting, .playing => true
  | .playing, .paused => true
  | .paused, .playing => true
  | .playing, .respawning => true
  | .respawning, .playing => true
  | .playing, .matchEnded => true
  | .matchEnded, .waiting => true
  | _, _ => false

/-- A win condition holds at wall-clock `now`: either side has reached
the kill threshold, or the match clock (as the tick would recompute it)
has reached zero. -/
def winCondition (gm : GM) (now : Int) : Prop :=
  gm.playerKills ≥ WIN_CONDITION_KILLS ∨
  gm.botKills ≥ WIN_CONDITION_KILLS ∨
  MATCH_TIME_LIMIT - ((now - gm.matchStartTime : Int) : ℚ) / 1000 ≤ 0

/-- The statistics invariant: per side, hits never exceed shots fired,
the stored accuracy lies in `[0, 100]`, and a side with zero shots fired
has accuracy 0. -/
def StatsInv (gm : GM) : Prop :=
  gm.playerShotsHit ≤ gm.playerShotsFired ∧
  gm.botShotsHit ≤ gm.botShotsFired ∧
  0 ≤ gm.stats.playerAccuracy ∧ gm.stats.playerAccuracy ≤ 100 ∧
  0 ≤ gm.stats.botAccuracy ∧ gm.stats.botAccuracy ≤ 100 ∧
  (gm.playerShotsFired = 0 → gm.stats.playerAccuracy = 0) ∧
  (gm.botShotsFired = 0 → gm.stats.botAccuracy = 0)

/-- A concrete tick input for witnesses: no input activity, both rays
miss, distance `q`, entities stand still. -/
def quietTick (now : Int) (q : ℚ) : TickInput :=
  ⟨1/60, now, false, false, none, none, distConst q, id, id⟩

/-- A concrete mid-match state in which the player has already reached
the kill threshold. -/
def gmWin : GM :=
  { GM.init 0 with state := GameState.playing, playerKills := 10 }

/-- A concrete just-started match state (inside the grace period for a
tick at `now = 500` ms). -/
def gmGrace : GM := { GM.init 0 with state := GameState.playing }

/-! ## Health theorems -/

theorem healthInv_takeDamage {h : Health} (hi : HealthInv h) {a : Int}
    (ha : 0 ≤ a) (hs : Bool) : HealthInv (h.takeDamage a hs) := by
  obtain ⟨hm, h0, h100⟩ := hi
  unfold Health.takeDamage
  split
  · exact ⟨hm, h0, h100⟩
  · dsimp only
    split <;>
      exact ⟨hm, le_max_left 0 _, max_le (by norm_num) (by omega)⟩

theorem healthInv_applyOp {h : Health} (hi : HealthInv h) {op : HealthOp}
    (hop : op.nonnegDamage) : HealthInv (h.applyOp op) := by
  cases op with
  | takeDamage a hs => exact healthInv_takeDamage hi hop hs
  | reset =>
      obtain ⟨hm, _, _⟩ := hi
      exact ⟨hm, by simp [Health.applyOp, Health.reset, hm], by simp [Health.applyOp, Health.reset, hm]⟩

theorem healthInv_runOps {ops : List HealthOp} {h : Health} (hi : HealthInv h)
    (hops : ∀ op ∈ ops, op.nonnegDamage) : HealthInv (h.runOps ops) := by
  induction ops generalizing h with
  | nil => exact hi
  | cons op rest ih =>
      exact ih (healthInv_applyOp hi (hops op (by simp)))
        (fun o ho => hops o (by simp [ho]))

theorem takeDamage_of_dead {h : Health} (hd : h.health ≤ 0) (a : Int)
    (hs : Bool) : h.takeDamage a hs = h := by
  unfold Health.takeDamage
  exact if_pos hd

/-- C1: over every sequence of `takeDamage`/`reset` calls (with the
nonnegative damage amounts the call sites supply) on a `Health`
constructed with maximum 100, the current value stays within
`[0, maximum]` at every prefix of the sequence; and a `takeDamage` on a
`Health` whose current value is 0 leaves it at 0 (it stays 0 until
`reset`). -/
theorem C1_health_invariant :
    (∀ ops : List HealthOp, (∀ op ∈ ops, op.nonnegDamage) →
      ∀ pre : List HealthOp, pre <+: ops →
        0 ≤ (Health.init.runOps pre).health ∧
        (Health.init.runOps pre).health ≤ 100) ∧
    (∀ (h : Health) (a : Int) (hs : Bool), h.health = 0 →
      (h.takeDamage a hs).health = 0) := by
  constructor
  · intro ops hops pre hpre
    have hinit : HealthInv Health.init := by
      refine ⟨rfl, ?_, ?_⟩ <;> simp [Health.init, MAX_HEALTH]
    have hpre' : ∀ op ∈ pre, op.nonnegDamage := by
      intro op hop
      exact hops op (hpre.subset hop)
    exact (healthInv_runOps hinit hpre').2
  · intro h a hs h0
    rw [takeDamage_of_dead (le_of_eq h0) a hs, h0]

/-- Witness for C1 at a concrete damage sequence. -/
theorem C1_health_invariant_witness :
    0 ≤ (Health.init.runOps
        [.takeDamage 30 false, .takeDamage 80 true]).health ∧
      (Health.init.runOps
        [.takeDamage 30 false, .takeDamage 80 true]).health ≤ 100 :=
  C1_health_invariant.1
    [.takeDamage 30 false, .takeDamage 80 true, .reset]
    (by intro op hop; fin_cases hop <;> simp [HealthOp.nonnegDamage])
    [.takeDamage 30 false, .takeDamage 80 true]
    ⟨[.reset], rfl⟩

/-- C6: `takeDamage` on an already-dead `Health` is a complete no-op (no
health change, no events); and from current health 25, `takeDamage 30`
clamps to 0, makes `isDead()` true, fires the death event exactly once,
and any further `takeDamage` changes nothing. -/
theorem C6_dead_noop_single_death :
    (∀ (h : Health) (a : Int) (hs : Bool), h.health ≤ 0 →
      h.takeDamage a hs = h) ∧
    (∀ (h : Health) (hs : Bool), h.health = 25 →
      (h.takeDamage 30 hs).health = 0 ∧
      (h.takeDamage 30 hs).isDead = true ∧
      (h.takeDamage 30 hs).deathEvents = h.deathEvents + 1 ∧
      ∀ (a : Int) (hs2 : Bool),
        (h.takeDamage 30 hs).takeDamage a hs2 = h.takeDamage 30 hs) := by
  refine ⟨fun h a hs hd => takeDamage_of_dead hd a hs, ?_⟩
  intro h hs h25
  have hmax : max 0 (h.health - 30) = 0 := by
    rw [h25]; norm_num
  have hne : ¬ h.health ≤ 0 := by omega
  have hstep : h.takeDamage 30 hs =
      { h with health := 0,
               healthChangeEvents := h.healthChangeEvents + 1,
               deathEvents := h.deathEvents + 1 } := by
    unfold Health.takeDamage
    rw [if_neg hne]
    simp only [hmax]
    rw [if_pos le_rfl]
  refine ⟨by rw [hstep], by rw [hstep]; rfl, by rw [hstep], ?_⟩
  intro a hs2
  exact takeDamage_of_dead (by rw [hstep]) a hs2

/-- Witness for C6 at a concrete `Health`. -/
theorem C6_dead_noop_single_death_witness :
    ((Health.mk 25 100 0 3).takeDamage 30 true).health = 0 ∧
      ((Health.mk 25 100 0 3).takeDamage 30 true).isDead = true ∧
      ((Health.mk 25 100 0 3).takeDamage 30 true).deathEvents = 0 + 1 := by
  have h := C6_dead_noop_single_death.2 (Health.mk 25 100 0 3) true rfl
  exact ⟨h.1, h.2.1, h.2.2.1⟩

/-! ## Weapon theorems -/

theorem fire_weapon_of_canFire {w : Weapon} {now : Int}
    (hcf : w.canFire now = true) (pick : Option Hit)
    (dist : Vec3 → Vec3 → ℚ) (origin : Vec3) (target : Option Target) :
    (w.fire now pick dist origin target).weapon =
      { w with lastFireTime := now } := by
  unfold Weapon.fire
  rw [if_neg (by simp [hcf])]
  cases target with
  | none => rfl
  | some t =>
      cases pick with
      | none => rfl
      | some hit =>
          dsimp only
          split <;> rfl

theorem fire_of_cannotFire {w : Weapon} {now : Int}
    (hcf : w.canFire now = false) (pick : Option Hit)
    (dist : Vec3 → Vec3 → ℚ) (origin : Vec3) (target : Option Target) :
    w.fire now pick dist origin target = ⟨w, target, false, []⟩ := by
  unfold Weapon.fire
  rw [if_pos (by simp [hcf])]

/-- C5: `canFire()` holds iff at least the fire interval (200 ms, from
the configured 0.2 s between shots) has elapsed since the last recorded
fire; consequently, after a fire call that passes the rate-limit gate, a
second call 100 ms later returns false, applies no damage, and changes
nothing. -/
theorem C5_canFire_iff_cooldown :
    (∀ last now : Int,
      ((Weapon.mk last FIRE_INTERVAL_MS).canFire now = true ↔
        now - last ≥ 200)) ∧
    (∀ (last now : Int) (pick pick2 : Option Hit)
       (dist dist2 : Vec3 → Vec3 → ℚ) (origin origin2 : Vec3)
       (target target2 : Option Target),
      (Weapon.mk last FIRE_INTERVAL_MS).canFire now = true →
      ((((Weapon.mk last FIRE_INTERVAL_MS).fire now pick dist origin
            target).weapon.fire (now + 100) pick2 dist2 origin2 target2) =
        ⟨((Weapon.mk last FIRE_INTERVAL_MS).fire now pick dist origin
            target).weapon, target2, false, []⟩)) := by
  constructor
  · intro last now
    simp [Weapon.canFire, FIRE_INTERVAL_MS]
  · intro last now pick pick2 dist dist2 origin origin2 target target2 hcf
    rw [fire_weapon_of_canFire hcf]
    refine fire_of_cannotFire ?_ pick2 dist2 origin2 target2
    simp [Weapon.canFire, FIRE_INTERVAL_MS]

/-- Witness for C5: a fresh weapon fired at t = 1000 ms cannot fire again
at t = 1100 ms. -/
theorem C5_canFire_iff_cooldown_witness :
    (((Weapon.mk 0 FIRE_INTERVAL_MS).fire 1000 none (distConst 0) origin0
        none).weapon.fire 1100 none (distConst 0) origin0 none) =
      ⟨((Weapon.mk 0 FIRE_INTERVAL_MS).fire 1000 none (distConst 0) origin0
          none).weapon, none, false, []⟩ :=
  C5_canFire_iff_cooldown.2 0 1000 none none (distConst 0) (distConst 0)
    origin0 origin0 none none (by decide)

/-- C4 counterexample: with `lastFireTime = 0` and a call at `now = 100`,
`canFire()` is false, `fire` returns false, and the last-fire timestamp
is NOT updated to 100 — the source returns before recording the
timestamp, so a rate-limited call does not consume a cooldown. -/
theorem C4_counterexample :
    (Weapon.mk 0 FIRE_INTERVAL_MS).canFire 100 = false ∧
      ((Weapon.mk 0 FIRE_INTERVAL_MS).fire 100 none (distConst 0) origin0
        none).result = false ∧
      ((Weapon.mk 0 FIRE_INTERVAL_MS).fire 100 none (distConst 0) origin0
        none).weapon.lastFireTime = 0 ∧
      (0 : Int) ≠ 100 := by
  refine ⟨by decide, ?_, ?_, by decide⟩ <;>
    rw [fire_of_cannotFire (by decide) none (distConst 0) origin0 none]

/-- C4 amended: a `fire` call made while `canFire()` is false returns
false with no effect at all (in particular the rate-limit timestamp is
NOT recorded); a call that passes the rate-limit gate with an absent
target returns false with no damage but records the timestamp (dry
fire); and every call that passes the gate records the timestamp
regardless of hit/miss outcome. -/
theorem C4_dry_fire_amended :
    (∀ (w : Weapon) (now : Int) (pick : Option Hit)
       (dist : Vec3 → Vec3 → ℚ) (origin : Vec3) (target : Option Target),
      w.canFire now = false →
      w.fire now pick dist origin target = ⟨w, target, false, []⟩) ∧
    (∀ (w : Weapon) (now : Int) (pick : Option Hit)
       (dist : Vec3 → Vec3 → ℚ) (origin : Vec3),
      w.canFire now = true →
      w.fire now pick dist origin none =
        ⟨{ w with lastFireTime := now }, none, false, []⟩) ∧
    (∀ (w : Weapon) (now : Int) (pick : Option Hit)
       (dist : Vec3 → Vec3 → ℚ) (origin : Vec3) (target : Option Target),
      w.canFire now = true →
      (w.fire now pick dist origin target).weapon.lastFireTime = now) := by
  refine ⟨fun w now pick dist origin target h =>
      fire_of_cannotFire h pick dist origin target,
    fun w now pick dist origin h => ?_,
    fun w now pick dist origin target h => by
      rw [fire_weapon_of_canFire h]⟩
  unfold Weapon.fire
  rw [if_neg (by simp [h])]

/-- Witness for C4 (amended): a rate-limited call leaves the weapon
untouched, and a gate-passing dry fire records the timestamp. -/
theorem C4_dry_fire_amended_witness :
    ((Weapon.mk 0 FIRE_INTERVAL_MS).fire 100 none (distConst 0) origin0
        (some ⟨origin0, none, none, Health.init⟩) =
      ⟨Weapon.mk 0 FIRE_INTERVAL_MS,
        some ⟨origin0, none, none, Health.init⟩, false, []⟩) ∧
    ((Weapon.mk 0 FIRE_INTERVAL_MS).fire 300 none (distConst 0) origin0
        none = ⟨Weapon.mk 300 FIRE_INTERVAL_MS, none, false, []⟩) :=
  ⟨C4_dry_fire_amended.1 (Weapon.mk 0 FIRE_INTERVAL_MS) 100 none
      (distConst 0) origin0 (some ⟨origin0, none, none, Health.init⟩)
      (by decide),
    C4_dry_fire_amended.2.1 (Weapon.mk 0 FIRE_INTERVAL_MS) 300 none
      (distConst 0) origin0 (by decide)⟩

/-- C3: on a confirmed hit, `fire` applies exactly one of the two fixed
damage amounts: a raycast hit whose picked geometry is the target's head
capsule always yields headshot damage (30); a body-tagged hit within the
name-specific distance tolerance (< 2.0 of the distance to a
`'bot'`-named target, < 1.5 for `'playerBody'`) yields body damage (20)
unless the secondary head-distance check `headReclass` (hit distance
within 0.3 of the distance to the head and not exceeding it by more than
0.2) reclassifies it as a headshot (30). -/
theorem C3_hit_resolution :
    ∀ (w : Weapon) (now : Int) (dist : Vec3 → Vec3 → ℚ) (origin : Vec3)
      (t : Target) (hit : Hit),
      w.canFire now = true → 0 < hit.distance →
      ((t.headColliderId = some hit.meshId →
          w.fire now (some hit) dist origin (some t) =
            ⟨{ w with lastFireTime := now },
              some { t with
                health := t.health.takeDamage HEADSHOT_DAMAGE true },
              true, [true]⟩) ∧
       (t.headColliderId ≠ some hit.meshId →
        ((hit.meshName = "bot" ∧
            |hit.distance - dist origin t.position| < 2) ∨
         (hit.meshName = "playerBody" ∧
            |hit.distance - dist origin t.position| < 3/2)) →
        w.fire now (some hit) dist origin (some t) =
          ⟨{ w with lastFireTime := now },
            some { t with health :=
              (t.health.takeDamage
                (if headReclass t hit.distance dist origin then
                  HEADSHOT_DAMAGE else BODY_DAMAGE)
                (headReclass t hit.distance dist origin)) },
            true, [headReclass t hit.distance dist origin]⟩)) := by
  intro w now dist origin t hit hcf hpos
  have hne : hit.distance ≠ 0 := ne_of_gt hpos
  constructor
  · intro hhead
    have hcap : capsuleHeadshot t hit = true := by
      simp [capsuleHeadshot, hhead]
    unfold Weapon.fire
    rw [if_neg (by simp [hcf])]
    simp [hcap]
  · intro hneq hbody
    have hcap : capsuleHeadshot t hit = false := by
      unfold capsuleHeadshot
      cases hh : t.headColliderId with
      | none => rfl
      | some hc =>
          simp only [decide_eq_false_iff_not]
          intro he
          exact hneq (by rw [hh, he])
    have hbt : bodyTagHit hit (dist origin t.position) = true := by
      unfold bodyTagHit
      rcases hbody with ⟨hn, hd⟩ | ⟨hn, hd⟩ <;>
        simp [hn, hne, hd]
    unfold Weapon.fire
    rw [if_neg (by simp [hcf])]
    simp [hcap, hbt]

/-- Witness for C3: a concrete head-capsule hit and a concrete
`'bot'`-tagged body hit (not reclassified). -/
theorem C3_hit_resolution_witness :
    ((Weapon.mk 0 FIRE_INTERVAL_MS).fire 500 (some ⟨7, "botHead", 10⟩)
        (distConst 10) origin0
        (some ⟨⟨0, 0, 10⟩, none, some 7, Health.init⟩) =
      ⟨Weapon.mk 500 FIRE_INTERVAL_MS,
        some ⟨⟨0, 0, 10⟩, none, some 7,
          Health.init.takeDamage HEADSHOT_DAMAGE true⟩, true, [true]⟩) ∧
    ((Weapon.mk 0 FIRE_INTERVAL_MS).fire 500 (some ⟨3, "bot", 10⟩)
        (distConst 10) origin0
        (some ⟨⟨0, 0, 10⟩, none, some 7, Health.init⟩) =
      ⟨Weapon.mk 500 FIRE_INTERVAL_MS,
        some ⟨⟨0, 0, 10⟩, none, some 7,
          Health.init.takeDamage BODY_DAMAGE false⟩, true, [false]⟩) := by
  constructor
  · exact (C3_hit_resolution (Weapon.mk 0 FIRE_INTERVAL_MS) 500
      (distConst 10) origin0 ⟨⟨0, 0, 10⟩, none, some 7, Health.init⟩
      ⟨7, "botHead", 10⟩ (by decide) (by norm_num)).1 rfl
  · have h := (C3_hit_resolution (Weapon.mk 0 FIRE_INTERVAL_MS) 500
      (distConst 10) origin0 ⟨⟨0, 0, 10⟩, none, some 7, Health.init⟩
      ⟨3, "bot", 10⟩ (by decide) (by norm_num)).2
      (by simp) (Or.inl ⟨rfl, by simp [distConst]⟩)
    rwa [show headReclass ⟨⟨0, 0, 10⟩, none, some 7, Health.init⟩ 10
        (distConst 10) origin0 = false from rfl] at h

/-! ## GameManager frame lemmas -/

theorem fire_onHitCalls_length (w : Weapon) (now : Int) (pick : Option Hit)
    (dist : Vec3 → Vec3 → ℚ) (origin : Vec3) (target : Option Target) :
    (w.fire now pick dist origin target).onHitCalls.length ≤ 1 := by
  unfold Weapon.fire
  split
  · simp
  · cases target with
    | none => simp
    | some t =>
        cases pick with
        | none => simp
        | some hit =>
            dsimp only
            split <;> simp

theorem foldl_playerOnHit_frame (l : List Bool) (g : GM) :
    (l.foldl GM.playerOnHit g).state = g.state ∧
    (l.foldl GM.playerOnHit g).botShotsFired = g.botShotsFired ∧
    (l.foldl GM.playerOnHit g).botShotsHit = g.botShotsHit ∧
    (l.foldl GM.playerOnHit g).botWeapon = g.botWeapon ∧
    (l.foldl GM.playerOnHit g).gameStartTime = g.gameStartTime ∧
    (l.foldl GM.playerOnHit g).playerShotsFired = g.playerShotsFired ∧
    (l.foldl GM.playerOnHit g).playerShotsHit =
      g.playerShotsHit + l.length := by
  induction l generalizing g with
  | nil => exact ⟨rfl, rfl, rfl, rfl, rfl, rfl, rfl⟩
  | cons b rest ih =>
      obtain ⟨h1, h2, h3, h4, h5, h6, h7⟩ := ih (g.playerOnHit b)
      simp only [List.foldl_cons]
      refine ⟨h1, h2, h3, h4, h5, h6, ?_⟩
      rw [h7]
      show g.playerShotsHit + 1 + rest.length = g.playerShotsHit + (rest.length + 1)
      omega

theorem foldl_botOnHit_frame (l : List Bool) (g : GM) :
    (l.foldl GM.botOnHit g).state = g.state ∧
    (l.foldl GM.botOnHit g).playerShotsFired = g.playerShotsFired ∧
    (l.foldl GM.botOnHit g).playerShotsHit = g.playerShotsHit ∧
    (l.foldl GM.botOnHit g).playerWeapon = g.playerWeapon ∧
    (l.foldl GM.botOnHit g).gameStartTime = g.gameStartTime ∧
    (l.foldl GM.botOnHit g).botShotsFired = g.botShotsFired ∧
    (l.foldl GM.botOnHit g).botShotsHit = g.botShotsHit + l.length := by
  induction l generalizing g with
  | nil => exact ⟨rfl, rfl, rfl, rfl, rfl, rfl, rfl⟩
  | cons b rest ih =>
      obtain ⟨h1, h2, h3, h4, h5, h6, h7⟩ := ih (g.botOnHit b)
      simp only [List.foldl_cons]
      refine ⟨h1, h2, h3, h4, h5, h6, ?_⟩
      rw [h7]
      show g.botShotsHit + 1 + rest.length = g.botShotsHit + (rest.length + 1)
      omega

theorem foldl_playerOnHit_state (l : List Bool) (g : GM) :
    (l.foldl GM.playerOnHit g).state = g.state :=
  (foldl_playerOnHit_frame l g).1

theorem foldl_botOnHit_state (l : List Bool) (g : GM) :
    (l.foldl GM.botOnHit g).state = g.state :=
  (foldl_botOnHit_frame l g).1

/-- C8: `restart` zeroes the kill counts, the per-side shots fired/hit,
the aggregate stats (headshots, accuracies, averages), and the
life-duration history, repositions both combatants at their spawn points
(the player at eye level `y = 1.8`), resets both healths, and sets the
state to `waiting`. -/
theorem C8_restart_resets (gm : GM) (now : Int) :
    (gm.restart now).state = .waiting ∧
    (gm.restart now).playerKills = 0 ∧
    (gm.restart now).botKills = 0 ∧
    (gm.restart now).stats = GameStats.init ∧
    (gm.restart now).playerShotsFired = 0 ∧
    (gm.restart now).playerShotsHit = 0 ∧
    (gm.restart now).botShotsFired = 0 ∧
    (gm.restart now).botShotsHit = 0 ∧
    (gm.restart now).lifeDurations = [] ∧
    (gm.restart now).player.position = ⟨playerSpawn.x, 9/5, playerSpawn.z⟩ ∧
    (gm.restart now).bot.position = botSpawn ∧
    (gm.restart now).player.health.health = gm.player.health.maxHealth ∧
    (gm.restart now).bot.health.health = gm.bot.health.maxHealth ∧
    (gm.restart now).matchTimeRemaining = MATCH_TIME_LIMIT :=
  ⟨rfl, rfl, rfl, rfl, rfl, rfl, rfl, rfl, rfl, rfl, rfl, rfl, rfl, rfl⟩

theorem foldl_playerOnHit_botShotsFired (l : List Bool) (g : GM) :
    (l.foldl GM.playerOnHit g).botShotsFired = g.botShotsFired :=
  (foldl_playerOnHit_frame l g).2.1

theorem foldl_playerOnHit_botShotsHit (l : List Bool) (g : GM) :
    (l.foldl GM.playerOnHit g).botShotsHit = g.botShotsHit :=
  (foldl_playerOnHit_frame l g).2.2.1

theorem foldl_playerOnHit_botWeapon (l : List Bool) (g : GM) :
    (l.foldl GM.playerOnHit g).botWeapon = g.botWeapon :=
  (foldl_playerOnHit_frame l g).2.2.2.1

theorem foldl_playerOnHit_gameStartTime (l : List Bool) (g : GM) :
    (l.foldl GM.playerOnHit g).gameStartTime = g.gameStartTime :=
  (foldl_playerOnHit_frame l g).2.2.2.2.1

theorem foldl_playerOnHit_playerShotsFired (l : List Bool) (g : GM) :
    (l.foldl GM.playerOnHit g).playerShotsFired = g.playerShotsFired :=
  (foldl_playerOnHit_frame l g).2.2.2.2.2.1

theorem foldl_playerOnHit_playerShotsHit (l : List Bool) (g : GM) :
    (l.foldl GM.playerOnHit g).playerShotsHit =
      g.playerShotsHit + l.length :=
  (foldl_playerOnHit_frame l g).2.2.2.2.2.2

theorem foldl_botOnHit_playerShotsFired (l : List Bool) (g : GM) :
    (l.foldl GM.botOnHit g).playerShotsFired = g.playerShotsFired :=
  (foldl_botOnHit_frame l g).2.1

theorem foldl_botOnHit_playerShotsHit (l : List Bool) (g : GM) :
    (l.foldl GM.botOnHit g).playerShotsHit = g.playerShotsHit :=
  (foldl_botOnHit_frame l g).2.2.1

theorem foldl_botOnHit_playerWeapon (l : List Bool) (g : GM) :
    (l.foldl GM.botOnHit g).playerWeapon = g.playerWeapon :=
  (foldl_botOnHit_frame l g).2.2.2.1

theorem foldl_botOnHit_gameStartTime (l : List Bool) (g : GM) :
    (l.foldl GM.botOnHit g).gameStartTime = g.gameStartTime :=
  (foldl_botOnHit_frame l g).2.2.2.2.1

theorem foldl_botOnHit_botShotsFired (l : List Bool) (g : GM) :
    (l.foldl GM.botOnHit g).botShotsFired = g.botShotsFired :=
  (foldl_botOnHit_frame l g).2.2.2.2.2.1

theorem foldl_botOnHit_botShotsHit (l : List Bool) (g : GM) :
    (l.foldl GM.botOnHit g).botShotsHit = g.botShotsHit + l.length :=
  (foldl_botOnHit_frame l g).2.2.2.2.2.2

theorem playerFirePhase_frame (g : GM) (i : TickInput) :
    ((g.playerFirePhase i).state = g.state ∨
      (g.playerFirePhase i).state = .respawning) ∧
    (g.playerFirePhase i).botShotsFired = g.botShotsFired ∧
    (g.playerFirePhase i).botShotsHit = g.botShotsHit ∧
    (g.playerFirePhase i).botWeapon = g.botWeapon ∧
    (g.playerFirePhase i).gameStartTime = g.gameStartTime ∧
    ((g.playerFirePhase i).playerShotsFired = g.playerShotsFired ∧
      (g.playerFirePhase i).playerShotsHit = g.playerShotsHit ∨
     (g.playerFirePhase i).playerShotsFired = g.playerShotsFired + 1 ∧
      (g.playerFirePhase i).playerShotsHit ≤ g.playerShotsHit + 1) := by
  unfold GM.playerFirePhase
  split
  · dsimp only
    refine ⟨?_, ?_, ?_, ?_, ?_, Or.inr ⟨?_, ?_⟩⟩
    · rw [foldl_playerOnHit_state]
      split
      · exact Or.inr rfl
      · exact Or.inl rfl
    · rw [foldl_playerOnHit_botShotsFired]; split <;> rfl
    · rw [foldl_playerOnHit_botShotsHit]; split <;> rfl
    · rw [foldl_playerOnHit_botWeapon]; split <;> rfl
    · rw [foldl_playerOnHit_gameStartTime]; split <;> rfl
    · rw [foldl_playerOnHit_playerShotsFired]; split <;> rfl
    · rw [foldl_playerOnHit_playerShotsHit]
      split <;>
        exact Nat.add_le_add_left
          (fire_onHitCalls_length _ _ _ _ _ _) _
  · exact ⟨Or.inl rfl, rfl, rfl, rfl, rfl, Or.inl ⟨rfl, rfl⟩⟩

theorem botFirePhase_frame (g : GM) (i : TickInput) :
    ((g.botFirePhase i).state = g.state ∨
      (g.botFirePhase i).state = .respawning) ∧
    (g.botFirePhase i).playerShotsFired = g.playerShotsFired ∧
    (g.botFirePhase i).playerShotsHit = g.playerShotsHit ∧
    (g.botFirePhase i).playerWeapon = g.playerWeapon ∧
    (g.botFirePhase i).gameStartTime = g.gameStartTime ∧
    ((g.botFirePhase i).botShotsFired = g.botShotsFired ∧
      (g.botFirePhase i).botShotsHit = g.botShotsHit ∨
     (g.botFirePhase i).botShotsFired = g.botShotsFired + 1 ∧
      (g.botFirePhase i).botShotsHit ≤ g.botShotsHit + 1) := by
  unfold GM.botFirePhase
  dsimp only
  split
  · split
    · refine ⟨?_, ?_, ?_, ?_, ?_, Or.inr ⟨?_, ?_⟩⟩
      · rw [foldl_botOnHit_state]
        split
        · exact Or.inr rfl
        · exact Or.inl rfl
      · rw [foldl_botOnHit_playerShotsFired]; split <;> rfl
      · rw [foldl_botOnHit_playerShotsHit]; split <;> rfl
      · rw [foldl_botOnHit_playerWeapon]; split <;> rfl
      · rw [foldl_botOnHit_gameStartTime]; split <;> rfl
      · rw [foldl_botOnHit_botShotsFired]; split <;> rfl
      · rw [foldl_botOnHit_botShotsHit]
        split <;>
          exact Nat.add_le_add_left
            (fire_onHitCalls_length _ _ _ _ _ _) _
    · exact ⟨Or.inl rfl, rfl, rfl, rfl, rfl, Or.inl ⟨rfl, rfl⟩⟩
  · exact ⟨Or.inl rfl, rfl, rfl, rfl, rfl, Or.inl ⟨rfl, rfl⟩⟩

/-- `updateStats` only touches the `stats` field. -/
theorem updateStats_state (g : GM) : (g.updateStats).state = g.state := rfl

theorem updateEntities_state (g : GM) (i : TickInput) :
    (g.updateEntities i).state = g.state := rfl

theorem endMatch_state (g : GM) : (g.endMatch).state = .matchEnded := rfl

theorem tickPlaying_state (g : GM) (i : TickInput) :
    (g.tickPlaying i).state = g.state ∨
      (g.tickPlaying i).state = .matchEnded ∨
      (g.tickPlaying i).state = .respawning := by
  unfold GM.tickPlaying
  dsimp only
  split
  · exact Or.inr (Or.inl rfl)
  split
  · exact Or.inr (Or.inl rfl)
  split
  · exact Or.inr (Or.inl rfl)
  rw [updateStats_state]
  rcases (botFirePhase_frame _ i).1 with hb | hb
  · rw [hb]
    rcases (playerFirePhase_frame _ i).1 with hp | hp
    · rw [hp, updateEntities_state]
      exact Or.inl rfl
    · rw [hp]
      exact Or.inr (Or.inr rfl)
  · rw [hb]
    exact Or.inr (Or.inr rfl)

theorem tickRespawning_state (g : GM) (i : TickInput) (dt : ℚ) :
    (g.tickRespawning i dt).state = g.state ∨
      (g.tickRespawning i dt).state = .playing := by
  unfold GM.tickRespawning
  dsimp only
  split
  · exact Or.inr rfl
  · exact Or.inl rfl

theorem startGame_noop {gm : GM} (h : gm.state ≠ .waiting) (lockOk : Bool)
    (now : Int) : gm.startGame lockOk now = gm := by
  unfold GM.startGame
  rw [if_pos h]

theorem unpause_noop {gm : GM} (h : gm.state ≠ .paused) (lockOk : Bool) :
    gm.unpause lockOk = gm := by
  unfold GM.unpause
  rw [if_neg h]

theorem tick_state_edges (gm : GM) (i : TickInput) :
    (gm.tick i).state = gm.state ∨
      specEdge gm.state (gm.tick i).state = true := by
  unfold GM.tick
  dsimp only
  split
  · rename_i h
    right
    rw [h.2]
    rfl
  · split
    · rename_i hp
      rcases tickPlaying_state gm i with h | h | h
      · exact Or.inl h
      · right; rw [hp, h]; rfl
      · right; rw [hp, h]; rfl
    · split
      · rename_i hr
        rcases tickRespawning_state gm i (min i.frameDelta (1/10)) with h | h
        · exact Or.inl h
        · right; rw [hr, h]; rfl
      · exact Or.inl rfl

/-- C2 counterexample: `restart` invoked while the state is `playing`
moves the state to `waiting`, which is not among the §4.5 edges (only
`matchEnded → waiting` is listed). -/
theorem C2_counterexample :
    ((GM.init 0).startGame true 0).state = GameState.playing ∧
      (((GM.init 0).startGame true 0).restart 5).state = GameState.waiting ∧
      specEdge GameState.playing GameState.waiting = false :=
  ⟨rfl, rfl, rfl⟩

/-- C2 amended: every operation either leaves the state unchanged or
moves it along a §4.5 edge, except that `restart` returns the state to
`waiting` from any state (the source performs no state check); in
particular `startGame` while not `waiting` and `unpause` while not
`paused` are complete no-ops. -/
theorem C2_transitions_amended :
    (∀ (gm : GM) (op : Op),
      (gm.step op).state = gm.state ∨
      specEdge gm.state (gm.step op).state = true ∨
      (∃ now, op = .restart now ∧ (gm.step op).state = .waiting)) ∧
    (∀ (gm : GM) (lockOk : Bool) (now : Int), gm.state ≠ .waiting →
      gm.startGame lockOk now = gm) ∧
    (∀ (gm : GM) (lockOk : Bool), gm.state ≠ .paused →
      gm.unpause lockOk = gm) := by
  refine ⟨?_, fun gm lockOk now h => startGame_noop h lockOk now,
    fun gm lockOk h => unpause_noop h lockOk⟩
  intro gm op
  cases op with
  | startGame lockOk now =>
      show (gm.startGame lockOk now).state = gm.state ∨
        specEdge gm.state (gm.startGame lockOk now).state = true ∨ _
      by_cases hw : gm.state = .waiting
      · unfold GM.startGame
        rw [if_neg (by simp [hw])]
        by_cases hl : lockOk = true
        · rw [if_pos hl]
          right; left
          rw [hw]
          rfl
        · rw [if_neg hl]
          exact Or.inl rfl
      · rw [startGame_noop hw lockOk now]
        exact Or.inl rfl
  | unpause lockOk =>
      show (gm.unpause lockOk).state = gm.state ∨
        specEdge gm.state (gm.unpause lockOk).state = true ∨ _
      by_cases hp : gm.state = .paused
      · unfold GM.unpause
        rw [if_pos hp]
        by_cases hl : lockOk = true
        · rw [if_pos hl]
          right; left
          rw [hp]
          rfl
        · rw [if_neg hl]
          exact Or.inl rfl
      · rw [unpause_noop hp lockOk]
        exact Or.inl rfl
  | tick i =>
      rcases tick_state_edges gm i with h | h
      · exact Or.inl h
      · exact Or.inr (Or.inl h)
  | restart now => exact Or.inr (Or.inr ⟨now, rfl, rfl⟩)

/-- Witness for C2 (amended): `startGame` on a state that is already
`playing` is a no-op. -/
theorem C2_transitions_amended_witness :
    ((GM.init 0).startGame true 0).startGame false 7 =
      (GM.init 0).startGame true 0 :=
  C2_transitions_amended.2.1 ((GM.init 0).startGame true 0) false 7
    (by decide)

theorem tickPlaying_of_win {gm : GM} {i : TickInput}
    (hwin : winCondition gm i.now) :
    gm.tickPlaying i = (gm.withTimer i.now).endMatch := by
  unfold GM.tickPlaying
  dsimp only
  by_cases h1 : (gm.withTimer i.now).playerKills ≥ WIN_CONDITION_KILLS
  · rw [if_pos h1]
  · rw [if_neg h1]
    by_cases h2 : (gm.withTimer i.now).botKills ≥ WIN_CONDITION_KILLS
    · rw [if_pos h2]
    · rw [if_neg h2]
      have h3 : (gm.withTimer i.now).matchTimeRemaining ≤ 0 := by
        rcases hwin with h | h | h
        · exact absurd h h1
        · exact absurd h h2
        · exact max_le le_rfl h
      rw [if_pos h3]

/-- C7: on a playing tick (not preempted by the pause toggle), if a win
condition already holds at the start of the tick, the win check — which
precedes every entity update and fire processing — ends the match: the
state becomes `matchEnded`, player control is revoked, and no movement,
damage, weapon-state change, shot counting or scoring happens on that
tick; and while `matchEnded`, a tick changes nothing at all and
`startGame`/`unpause` are no-ops, so nothing further occurs until
restart. -/
theorem C7_win_check_precedes_updates :
    ∀ (gm : GM) (i : TickInput),
      (gm.state = .playing → i.escapePressed = false →
        winCondition gm i.now →
        (gm.tick i).state = .matchEnded ∧
        (gm.tick i).player.canControl = false ∧
        (gm.tick i).player.position = gm.player.position ∧
        (gm.tick i).bot.position = gm.bot.position ∧
        (gm.tick i).player.health = gm.player.health ∧
        (gm.tick i).bot.health = gm.bot.health ∧
        (gm.tick i).playerWeapon = gm.playerWeapon ∧
        (gm.tick i).botWeapon = gm.botWeapon ∧
        (gm.tick i).playerShotsFired = gm.playerShotsFired ∧
        (gm.tick i).playerShotsHit = gm.playerShotsHit ∧
        (gm.tick i).botShotsFired = gm.botShotsFired ∧
        (gm.tick i).botShotsHit = gm.botShotsHit ∧
        (gm.tick i).playerKills = gm.playerKills ∧
        (gm.tick i).botKills = gm.botKills) ∧
      (gm.state = .matchEnded →
        gm.tick i = gm ∧
        (∀ (lockOk : Bool) (now : Int), gm.startGame lockOk now = gm) ∧
        (∀ lockOk : Bool, gm.unpause lockOk = gm)) := by
  intro gm i
  constructor
  · intro hp hesc hwin
    have ht : gm.tick i = (gm.withTimer i.now).endMatch := by
      unfold GM.tick
      dsimp only
      have hc1 : ¬(i.escapePressed = true ∧ gm.state = GameState.playing) :=
        by simp [hesc]
      rw [if_neg hc1, if_pos hp]
      exact tickPlaying_of_win hwin
    rw [ht]
    exact ⟨rfl, rfl, rfl, rfl, rfl, rfl, rfl, rfl, rfl, rfl, rfl, rfl,
      rfl, rfl⟩
  · intro hm
    refine ⟨?_, fun lockOk now => startGame_noop (by rw [hm]; simp) lockOk now,
      fun lockOk => unpause_noop (by rw [hm]; simp) lockOk⟩
    unfold GM.tick
    dsimp only
    have hc1 : ¬(i.escapePressed = true ∧ gm.state = GameState.playing) :=
      by simp [hm]
    have hc2 : ¬(gm.state = GameState.playing) := by simp [hm]
    have hc3 : ¬(gm.state = GameState.respawning) := by simp [hm]
    rw [if_neg hc1, if_neg hc2, if_neg hc3]

/-- Witness for C7: a concrete playing state with ten player kills ends
the match on the next tick with no combat side effects. -/
theorem C7_win_check_precedes_updates_witness :
    (gmWin.tick (quietTick 100 5)).state = .matchEnded ∧
      (gmWin.tick (quietTick 100 5)).player.canControl = false ∧
      (gmWin.tick (quietTick 100 5)).playerShotsFired =
        gmWin.playerShotsFired ∧
      (gmWin.tick (quietTick 100 5)).player.health = gmWin.player.health :=
  have h := (C7_win_check_precedes_updates gmWin (quietTick 100 5)).1 rfl rfl
    (Or.inl (by decide))
  ⟨h.1, h.2.1, h.2.2.2.2.2.2.2.2.1, h.2.2.2.2.1⟩

theorem botFirePhase_noop_of_grace {g : GM} {i : TickInput}
    (h : ((i.now - g.gameStartTime : Int) : ℚ) / 1000 < 2) :
    g.botFirePhase i = g := by
  unfold GM.botFirePhase
  dsimp only
  exact if_neg (fun hc => absurd hc.2.2.2 (not_le.2 h))

/-- C9: the bot never fires during the 2-second grace period after the
match starts (a playing tick whose wall clock is within 2 s of
`gameStartTime` leaves the bot's shot counter and weapon untouched); and
whenever the bot-fire step issues a fire attempt, the bot's weapon could
fire, both combatants were alive, the grace period had elapsed, and the
bot-to-player distance was within the chase-distance threshold (20). -/
theorem C9_bot_fire_gating :
    (∀ (gm : GM) (i : TickInput), gm.state = .playing →
      ((i.now - gm.gameStartTime : Int) : ℚ) / 1000 < 2 →
      (gm.tick i).botShotsFired = gm.botShotsFired ∧
      (gm.tick i).botWeapon = gm.botWeapon) ∧
    (∀ (g : GM) (i : TickInput),
      (g.botFirePhase i).botShotsFired ≠ g.botShotsFired →
      g.botWeapon.canFire i.now = true ∧
      g.bot.health.isDead = false ∧
      g.player.health.isDead = false ∧
      ((i.now - g.gameStartTime : Int) : ℚ) / 1000 ≥ 2 ∧
      i.dist g.bot.position g.player.position ≤ BOT_CHASE_DISTANCE) := by
  constructor
  · intro gm i hp hgrace
    unfold GM.tick
    dsimp only
    by_cases hesc : i.escapePressed = true ∧ gm.state = GameState.playing
    · rw [if_pos hesc]
      exact ⟨rfl, rfl⟩
    · rw [if_neg hesc, if_pos hp]
      unfold GM.tickPlaying
      dsimp only
      split
      · exact ⟨rfl, rfl⟩
      split
      · exact ⟨rfl, rfl⟩
      split
      · exact ⟨rfl, rfl⟩
      have hgs : ((((gm.withTimer i.now).updateEntities i)).playerFirePhase
          i).gameStartTime = gm.gameStartTime :=
        (playerFirePhase_frame _ i).2.2.2.2.1
      have hno : (((((gm.withTimer i.now).updateEntities i)).playerFirePhase
          i).botFirePhase i) =
          ((((gm.withTimer i.now).updateEntities i)).playerFirePhase i) :=
        botFirePhase_noop_of_grace (by rw [hgs]; exact hgrace)
      rw [hno]
      exact ⟨(playerFirePhase_frame _ i).2.1,
        (playerFirePhase_frame _ i).2.2.2.1⟩
  · intro g i hchange
    unfold GM.botFirePhase at hchange
    dsimp only at hchange
    split at hchange
    · rename_i hA
      split at hchange
      · rename_i hB
        refine ⟨hA.1, ?_, ?_, hA.2.2.2, hB⟩
        · simpa using hA.2.1
        · simpa using hA.2.2.1
      · exact absurd rfl hchange
    · exact absurd rfl hchange

/-- Witness for C9: a tick at 500 ms into a fresh match leaves the bot's
shot counter and weapon untouched. -/
theorem C9_bot_fire_gating_witness :
    (gmGrace.tick (quietTick 500 5)).botShotsFired =
        gmGrace.botShotsFired ∧
      (gmGrace.tick (quietTick 500 5)).botWeapon = gmGrace.botWeapon :=
  C9_bot_fire_gating.1 gmGrace (quietTick 500 5) rfl (by norm_num [gmGrace, GM.init, quietTick])

/-! ## Statistics invariant (C10) -/

theorem accuracy_in_range {hit fired : Nat} (h : hit ≤ fired) :
    0 ≤ (if fired > 0 then ((hit : ℚ) / (fired : ℚ)) * 100 else 0) ∧
      (if fired > 0 then ((hit : ℚ) / (fired : ℚ)) * 100 else 0) ≤ 100 := by
  split_ifs with hf
  · constructor
    · positivity
    · have hle : (hit : ℚ) / (fired : ℚ) ≤ 1 := by
        rw [div_le_one (by exact_mod_cast hf)]
        exact_mod_cast h
      linarith
  · norm_num

theorem updateStats_playerAccuracy (g : GM) :
    (g.updateStats).stats.playerAccuracy =
      if g.playerShotsFired > 0 then
        ((g.playerShotsHit : ℚ) / (g.playerShotsFired : ℚ)) * 100
      else 0 := by
  by_cases hl : g.lifeDurations.length > 0 <;>
    simp [GM.updateStats, hl]

theorem updateStats_botAccuracy (g : GM) :
    (g.updateStats).stats.botAccuracy =
      if g.botShotsFired > 0 then
        ((g.botShotsHit : ℚ) / (g.botShotsFired : ℚ)) * 100
      else 0 := by
  by_cases hl : g.lifeDurations.length > 0 <;>
    simp [GM.updateStats, hl]

theorem statsInv_updateStats {g : GM}
    (h1 : g.playerShotsHit ≤ g.playerShotsFired)
    (h2 : g.botShotsHit ≤ g.botShotsFired) :
    StatsInv g.updateStats := by
  refine ⟨h1, h2, ?_, ?_, ?_, ?_, ?_, ?_⟩
  · rw [updateStats_playerAccuracy]; exact (accuracy_in_range h1).1
  · rw [updateStats_playerAccuracy]; exact (accuracy_in_range h1).2
  · rw [updateStats_botAccuracy]; exact (accuracy_in_range h2).1
  · rw [updateStats_botAccuracy]; exact (accuracy_in_range h2).2
  · intro h0
    have h0' : g.playerShotsFired = 0 := h0
    rw [updateStats_playerAccuracy, if_neg (by omega)]
  · intro h0
    have h0' : g.botShotsFired = 0 := h0
    rw [updateStats_botAccuracy, if_neg (by omega)]

theorem statsInv_tickPlaying {g : GM} (hs : StatsInv g) (i : TickInput) :
    StatsInv (g.tickPlaying i) := by
  obtain ⟨h1, h2, _⟩ := hs
  unfold GM.tickPlaying
  dsimp only
  split
  · exact statsInv_updateStats h1 h2
  split
  · exact statsInv_updateStats h1 h2
  split
  · exact statsInv_updateStats h1 h2
  · have hYf : ((g.withTimer i.now).updateEntities i).playerShotsFired =
        g.playerShotsFired := rfl
    have hYh : ((g.withTimer i.now).updateEntities i).playerShotsHit =
        g.playerShotsHit := rfl
    have hYbf : ((g.withTimer i.now).updateEntities i).botShotsFired =
        g.botShotsFired := rfl
    have hYbh : ((g.withTimer i.now).updateEntities i).botShotsHit =
        g.botShotsHit := rfl
    have hPdisj := (playerFirePhase_frame
      ((g.withTimer i.now).updateEntities i) i).2.2.2.2.2
    have hPbf := (playerFirePhase_frame
      ((g.withTimer i.now).updateEntities i) i).2.1
    have hPbh := (playerFirePhase_frame
      ((g.withTimer i.now).updateEntities i) i).2.2.1
    have hBpf := (botFirePhase_frame
      (((g.withTimer i.now).updateEntities i).playerFirePhase i) i).2.1
    have hBph := (botFirePhase_frame
      (((g.withTimer i.now).updateEntities i).playerFirePhase i) i).2.2.1
    have hBdisj := (botFirePhase_frame
      (((g.withTimer i.now).updateEntities i).playerFirePhase i)
      i).2.2.2.2.2
    apply statsInv_updateStats
    · rcases hPdisj with ⟨e1, e2⟩ | ⟨e1, e2⟩ <;> omega
    · rcases hBdisj with ⟨e1, e2⟩ | ⟨e1, e2⟩ <;> omega

theorem statsInv_tickRespawning {g : GM} (hs : StatsInv g) (i : TickInput)
    (dt : ℚ) : StatsInv (g.tickRespawning i dt) := by
  unfold GM.tickRespawning
  dsimp only
  split
  · rcases hsc : g.respawningEntity with _ | s
    · simp only [hsc]
      exact hs
    · cases s <;> simp only [hsc] <;> exact hs
  · exact hs

theorem statsInv_tick {g : GM} (hs : StatsInv g) (i : TickInput) :
    StatsInv (g.tick i) := by
  unfold GM.tick
  dsimp only
  by_cases hesc : i.escapePressed = true ∧ g.state = GameState.playing
  · rw [if_pos hesc]
    exact hs
  · rw [if_neg hesc]
    split
    · exact statsInv_tickPlaying ⟨hs.1, hs.2⟩ i
    split
    · exact statsInv_tickRespawning hs i _
    · exact hs

theorem statsInv_init (now0 : Int) (headP headB : Nat) :
    StatsInv (GM.init now0 headP headB) :=
  ⟨le_rfl, le_rfl, le_rfl, by show (0 : ℚ) ≤ 100; norm_num, le_rfl,
    by show (0 : ℚ) ≤ 100; norm_num, fun _ => rfl, fun _ => rfl⟩

theorem statsInv_step {g : GM} (hs : StatsInv g) (op : Op) :
    StatsInv (g.step op) := by
  cases op with
  | startGame lockOk now =>
      show StatsInv (g.startGame lockOk now)
      unfold GM.startGame
      split
      · exact hs
      split
      · exact hs
      · exact hs
  | unpause lockOk =>
      show StatsInv (g.unpause lockOk)
      unfold GM.unpause
      split
      · split
        · exact hs
        · exact hs
      · exact hs
  | tick i => exact statsInv_tick hs i
  | restart now =>
      show StatsInv (g.restart now)
      exact ⟨le_rfl, le_rfl, le_rfl, by show (0 : ℚ) ≤ 100; norm_num,
        le_rfl, by show (0 : ℚ) ≤ 100; norm_num, fun _ => rfl, fun _ => rfl⟩

theorem statsInv_run {g : GM} (hs : StatsInv g) (ops : List Op) :
    StatsInv (g.run ops) := by
  induction ops generalizing g with
  | nil => exact hs
  | cons op rest ih => exact ih (statsInv_step hs op)

/-- C10: from a freshly constructed game manager, after any sequence of
operations, each side's hit count never exceeds its shots-fired count
(every fire call increments the fired counter before its at-most-one hit
callback can run), so the stored accuracies always lie in `[0, 100]`,
and a side with zero shots fired has its accuracy reported as 0 (no
division by zero). -/
theorem C10_accuracy_invariant (now0 : Int) (headP headB : Nat)
    (ops : List Op) : StatsInv ((GM.init now0 headP headB).run ops) :=
  statsInv_run (statsInv_init now0 headP headB) ops

end Arena
